import Mathlib

/-!
Shallow embedding of `tasoc_tpfs.py`: a small wrapper that loads a TASOC
target-pixel file from a FITS file, derives the aperture mask from the
pipeline flag array, plots the flux image with an aperture overlay, and a
pipeline function that re-downloads a TESSCut cutout centered on the TPF's
central coordinate and attaches the original mask.

External effects (FITS I/O, the lightkurve search/download client, matplotlib)
are modelled explicitly: fallible operations return `Except PyError`, the
plotting axes are a record of the images and patches drawn on them, and the
remote client is a record of functions supplied by the caller.
-/

/-- Errors raised by the underlying Python libraries.  The wrapper itself
never constructs, catches or translates these; they only propagate. -/
inductive PyError where
  | indexError (n : Nat)
  | fileNotFound (s : String)
  | networkError (s : String)
  | emptySearch
  | attributeError (s : String)
  deriving DecidableEq, Repr

/-- A 2D array (numpy `ndarray` with two axes) as a list of rows. -/
abbrev Grid (α : Type) := List (List α)

/-- numpy `arr.shape` for a 2D array: (number of rows, number of columns),
the column count read off the first row. -/
def Grid.shape {α : Type} (g : Grid α) : Nat × Nat :=
  (g.length, (g.headD []).length)

/-- A 2D array is rectangular (every numpy 2D array is). -/
def Grid.Rectangular {α : Type} (g : Grid α) : Prop :=
  ∀ row ∈ g, row.length = (g.headD []).length

instance {α : Type} (g : Grid α) : Decidable (Grid.Rectangular g) :=
  inferInstanceAs (Decidable (∀ row ∈ g, row.length = (g.headD []).length))

/-- A sky coordinate (`astropy.coordinates.SkyCoord`), kept abstract as a
pair of numbers (ra, dec). -/
abbrev SkyCoord := Int × Int

/-- A world coordinate system (`astropy.wcs.WCS`): its only behaviour used by
the source is the pixel-to-world transform, taking pixel column x and row y. -/
structure WCS where
  pixel_to_world : Nat → Nat → SkyCoord

/-- One FITS HDU as the loader uses it: its `.data` payload (an integer 2D
array) and the WCS read off its header by `WCS(hdu)`. -/
structure HDU where
  data : Grid Int
  wcs : WCS

/-- Python `hdul[n]`: list indexing that raises `IndexError` out of range. -/
def pyGetItem {α : Type} (l : List α) (n : Nat) : Except PyError α :=
  match l.get? n with
  | some a => Except.ok a
  | none => Except.error (PyError.indexError n)

/-- The TPF data holder of the source (`class MyTPF`). -/
structure MyTPF where
  filename : String
  flux : Grid Int
  pipeline_mask : Grid Bool
  wcs : WCS

/-- Python `(v & 2).astype(bool)` on one flag value: true iff bit value 2 is
set. -/
def flagBit2 (v : Int) : Bool := Int.land v 2 != 0

/-- `MyTPF.__init__`: open the FITS file, take `hdul[2].data` as flux,
`(hdul[3].data & 2).astype(bool)` as the pipeline mask, and `WCS(hdul[2])`.
`fits_open` is the `fits.open` of astropy, supplied as the file system model. -/
def MyTPF.ofFile (fits_open : String → Except PyError (List HDU))
    (filename : String) : Except PyError MyTPF := do
  let hdul ← fits_open filename
  let h2 ← pyGetItem hdul 2
  let h3 ← pyGetItem hdul 3
  Except.ok
    { filename := filename
      flux := h2.data
      pipeline_mask := h3.data.map (fun row => row.map flagBit2)
      wcs := h2.wcs }

/-- `MyTPF.shape`: the (height, width) of the flux array. -/
def MyTPF.shape (tpf : MyTPF) : Nat × Nat := tpf.flux.shape

/-- `MyTPF.get_central_coordinate`: unpack `h, w = self.shape` and return
`self.wcs.pixel_to_world(w//2, h//2)` (floor division). -/
def MyTPF.get_central_coordinate (tpf : MyTPF) : SkyCoord :=
  match tpf.shape with
  | (h, w) => tpf.wcs.pixel_to_world (w / 2) (h / 2)

/-- A `matplotlib.patches.Rectangle` as constructed by `_plot_aperture`:
lower-left corner `xy`, width, height, color, fill flag and hatch pattern. -/
structure Rect where
  x : ℚ
  y : ℚ
  width : ℚ
  height : ℚ
  color : String
  fill : Bool
  hatch : String
  deriving DecidableEq, Repr

/-- A matplotlib axes object, recorded as the images rendered on it and the
patches added to it, in order. -/
structure Axes where
  images : List (Grid Int)
  patches : List Rect
  deriving Repr

/-- The rectangle `_plot_aperture` builds for the true cell at row i,
column j: `xy=(j - 0.5, i - 0.5), width=1, height=1, fill=False, hatch="//"`. -/
def mkRect (i j : Nat) (mask_color : String) : Rect :=
  { x := (j : ℚ) - 1/2
    y := (i : ℚ) - 1/2
    width := 1
    height := 1
    color := mask_color
    fill := false
    hatch := "//" }

/-- `ax.add_patch(rect)`. -/
def Axes.add_patch (ax : Axes) (r : Rect) : Axes :=
  { ax with patches := ax.patches ++ [r] }

/-- `lightkurve.utils.plot_image(flux, ax=ax, **kw)`: renders the flux image
on the axes (creating them when `ax is None` — modelled by the caller passing
fresh empty axes) and returns the axes. -/
def plot_image (flux : Grid Int) (ax : Axes) : Axes :=
  { ax with images := ax.images ++ [flux] }

/-- Body of the inner `for j in range(...)` loop of `_plot_aperture`, over the
enumerated cells `(j, aperture_mask[i, j])` of row i. -/
def apertureStepCell (mask_color : String) (i : Nat) (ax : Axes)
    (jb : Nat × Bool) : Axes :=
  if jb.2 then ax.add_patch (mkRect i jb.1 mask_color) else ax

/-- Body of the outer `for i in range(...)` loop of `_plot_aperture`, over the
enumerated rows `(i, row)` of the mask. -/
def apertureStepRow (mask_color : String) (ax : Axes)
    (irow : Nat × List Bool) : Axes :=
  irow.2.enum.foldl (apertureStepCell mask_color irow.1) ax

/-- `MyTPF._plot_aperture(self, ax, aperture_mask, mask_color)`: for every
true cell of the mask, add an unfilled hatched unit rectangle at
`(j - 0.5, i - 0.5)`.  `self` is never used by the body. -/
def MyTPF.plot_aperture (_self : MyTPF) (ax : Axes) (aperture_mask : Grid Bool)
    (mask_color : String := "w") : Axes :=
  aperture_mask.enum.foldl (apertureStepRow mask_color) ax

/-- The Python value passed as `aperture_mask` to `MyTPF.plot`: `None`, a
string, or an ndarray. -/
inductive MaskArg where
  | noneArg : MaskArg
  | str (s : String) : MaskArg
  | arr (m : Grid Bool) : MaskArg

/-- Python `aperture_mask == s` for a string s: string equality for a string
argument; for an ndarray (or None) the comparison with a string falls back to
identity and yields False. -/
def MaskArg.eqStr (a : MaskArg) (s : String) : Bool :=
  match a with
  | MaskArg.str t => t == s
  | _ => false

/-- `MyTPF.plot`: render the flux image, then unless `aperture_mask is None`
overlay the selected mask — the object's own `pipeline_mask` when the argument
equals `"pipeline"`, otherwise the argument itself.  Passing any other string
reaches `_plot_aperture`, which fails on `aperture_mask.shape`
(`AttributeError`).  Returns the axes. -/
def MyTPF.plot (tpf : MyTPF) (ax : Axes)
    (aperture_mask : MaskArg := MaskArg.str "pipeline")
    (mask_color : String := "w") : Except PyError Axes :=
  let ax := plot_image tpf.flux ax
  match aperture_mask with
  | MaskArg.noneArg => Except.ok ax
  | am =>
    let am := if am.eqStr "pipeline" then MaskArg.arr tpf.pipeline_mask else am
    match am with
    | MaskArg.arr g => Except.ok (tpf.plot_aperture ax g mask_color)
    | _ => Except.error (PyError.attributeError "shape")

/-- The true cells of a mask in row-major order, as (row, column) pairs. -/
def trueCells (mask : Grid Bool) : List (Nat × Nat) :=
  mask.enum.flatMap
    (fun irow => (irow.2.enum.filter (fun jb => jb.2)).map
      (fun jb => (irow.1, jb.1)))

/-- The number of true cells of a mask. -/
def countTrue (mask : Grid Bool) : Nat :=
  (mask.map (fun row => (row.filter id).length)).sum

/-- A downloaded TASOC light curve object; the source only reads its
`.filename`. -/
structure LC where
  filename : String

/-- A lightkurve search result for `search_lightcurve`; `.download()` fetches
the first result (or raises). -/
structure SearchResultLC where
  download : Except PyError LC

/-- The TESSCut-created target pixel file returned by the cutout download.
It arrives with its own (trivial) pipeline mask, which the source overwrites. -/
structure CutoutTPF where
  flux : Grid Int
  pipeline_mask : Grid Bool
  meta : String

/-- Python `tpf.pipeline_mask = m` on the cutout object. -/
def CutoutTPF.set_pipeline_mask (t : CutoutTPF) (m : Grid Bool) : CutoutTPF :=
  { t with pipeline_mask := m }

/-- A lightkurve search result for `search_tesscut`;
`.download(cutout_size=...)` fetches the cutout with the requested size. -/
structure SearchResultCut where
  download : Nat × Nat → Except PyError CutoutTPF

/-- The external world the pipeline function calls into: the lightkurve
search client and the FITS file system. -/
structure Env where
  search_lightcurve : String → String → Option Nat → Except PyError SearchResultLC
  fits_open : String → Except PyError (List HDU)
  search_tesscut : SkyCoord → Option Nat → Except PyError SearchResultCut

/-- `get_tasoc_tpf(tic, sector)`: search the TASOC light curves for
`f"TIC {tic}"`, download, load a `MyTPF` from the downloaded file, search
TESSCut at its central coordinate, download a cutout of the same shape, and
attach the original pipeline mask. -/
def get_tasoc_tpf (env : Env) (tic : String) (sector : Option Nat := none) :
    Except PyError CutoutTPF := do
  let sr ← env.search_lightcurve s!"TIC {tic}" "tasoc" sector
  let lc ← sr.download
  let tpf0 ← MyTPF.ofFile env.fits_open lc.filename
  let coord := tpf0.get_central_coordinate
  let sr2 ← env.search_tesscut coord sector
  let tpf ← sr2.download tpf0.shape
  Except.ok (tpf.set_pipeline_mask tpf0.pipeline_mask)

/-- `MyTPF.shape` with the receiver threaded through, reflecting that the
property body performs no assignment to `self`. -/
def MyTPF.shapeS (tpf : MyTPF) : (Nat × Nat) × MyTPF := (tpf.shape, tpf)

/-- `MyTPF.get_central_coordinate` with the receiver threaded through; the
body performs no assignment to `self`. -/
def MyTPF.get_central_coordinateS (tpf : MyTPF) : SkyCoord × MyTPF :=
  (tpf.get_central_coordinate, tpf)

/-- `MyTPF._plot_aperture` with the receiver threaded through; the body only
mutates the axes, never `self`. -/
def MyTPF.plot_apertureS (tpf : MyTPF) (ax : Axes) (aperture_mask : Grid Bool)
    (mask_color : String := "w") : Axes × MyTPF :=
  (tpf.plot_aperture ax aperture_mask mask_color, tpf)

/-- `MyTPF.plot` with the receiver threaded through; the body reads
`self.flux` and `self.pipeline_mask` but performs no assignment to `self`,
on the success and the error path alike. -/
def MyTPF.plotS (tpf : MyTPF) (ax : Axes)
    (aperture_mask : MaskArg := MaskArg.str "pipeline")
    (mask_color : String := "w") : Except PyError Axes × MyTPF :=
  (tpf.plot ax aperture_mask mask_color, tpf)

/-! ### Concrete sample data, used to exercise the definitions -/

/-- A stub WCS whose pixel-to-world transform is the identity on the pixel
indices, so its output is directly checkable. -/
def sampleWCS : WCS := ⟨fun x y => ((x : Int), (y : Int))⟩

/-- A sample FITS HDU list: extension 2 holds a 2x2 flux image, extension 3
holds flags 2, 0, 3, 4 (bit 2 set in 2 and 3, clear in 0 and 4). -/
def sampleHDUL : List HDU :=
  [⟨[], sampleWCS⟩, ⟨[], sampleWCS⟩,
   ⟨[[10, 20], [30, 40]], sampleWCS⟩,
   ⟨[[2, 0], [3, 4]], sampleWCS⟩]

/-- A FITS HDU list exercising all the example flag values of the spec:
2, 3, 6 (bit 2 set) and 0, 1, 4, 5 (bit 2 clear). -/
def sampleHDULFlags : List HDU :=
  [⟨[], sampleWCS⟩, ⟨[], sampleWCS⟩,
   ⟨[[10, 20, 30], [40, 50, 60], [70, 80, 90]], sampleWCS⟩,
   ⟨[[2, 3, 6], [0, 1, 4], [5, 0, 2]], sampleWCS⟩]

/-- A FITS opener serving `sampleHDULFlags` for every path. -/
def sampleOpenFlags : String → Except PyError (List HDU) :=
  fun _ => Except.ok sampleHDULFlags

/-- The `MyTPF` value that loading `sampleHDULFlags` produces. -/
def sampleLoadedFlags : MyTPF :=
  ⟨"sample.fits", [[10, 20, 30], [40, 50, 60], [70, 80, 90]],
   [[true, true, true], [false, false, false], [false, false, true]],
   sampleWCS⟩

/-- A sample TPF with a 4x6 flux image and the stub WCS. -/
def sampleTPF46 : MyTPF :=
  ⟨"sample.fits",
   [[1, 2, 3, 4, 5, 6], [1, 2, 3, 4, 5, 6], [1, 2, 3, 4, 5, 6],
    [1, 2, 3, 4, 5, 6]],
   [[true, false, false, false, false, false]], sampleWCS⟩

/-- An environment in which every remote call and file read succeeds. -/
def sampleEnv : Env :=
  { search_lightcurve := fun _ _ _ => Except.ok ⟨Except.ok ⟨"lc.fits"⟩⟩
    fits_open := fun _ => Except.ok sampleHDUL
    search_tesscut := fun _ _ => Except.ok
      ⟨fun _ => Except.ok ⟨[[1, 2], [3, 4]], [[false, false], [false, false]],
        "tesscut"⟩⟩ }

/-- An environment whose FITS files are malformed: only two extensions, so
`hdul[2]` raises `IndexError`. -/
def sampleEnvShort : Env :=
  { sampleEnv with fits_open := fun _ => Except.ok [⟨[], sampleWCS⟩, ⟨[], sampleWCS⟩] }

/-! ### Helper lemmas about the aperture-overlay loops -/

theorem foldl_apertureStepCell (c : String) (i : Nat) (l : List (Nat × Bool)) :
    ∀ ax : Axes, List.foldl (apertureStepCell c i) ax l =
      { ax with patches := ax.patches ++
          (l.filter (fun jb => jb.2)).map (fun jb => mkRect i jb.1 c) } := by
  induction l with
  | nil => intro ax; simp
  | cons hd t ih =>
    intro ax
    obtain ⟨j, b⟩ := hd
    cases b with
    | false => simp [apertureStepCell, List.filter, ih]
    | true => simp [apertureStepCell, Axes.add_patch, List.filter, ih]

theorem foldl_apertureStepRow (c : String) (l : List (Nat × List Bool)) :
    ∀ ax : Axes, List.foldl (apertureStepRow c) ax l =
      { ax with patches := ax.patches ++
          l.flatMap (fun irow => (irow.2.enum.filter (fun jb => jb.2)).map
            (fun jb => mkRect irow.1 jb.1 c)) } := by
  induction l with
  | nil => intro ax; simp
  | cons hd t ih =>
    intro ax
    simp [apertureStepRow, foldl_apertureStepCell, ih]

theorem plot_aperture_eq (tpf : MyTPF) (ax : Axes) (mask : Grid Bool)
    (c : String) :
    tpf.plot_aperture ax mask c =
      { ax with patches := ax.patches ++
          (trueCells mask).map (fun ij => mkRect ij.1 ij.2 c) } := by
  unfold MyTPF.plot_aperture trueCells
  rw [foldl_apertureStepRow]
  congr 1
  simp [List.map_flatMap, List.map_map, Function.comp_def]

theorem length_filter_enumFrom (row : List Bool) :
    ∀ k : Nat, ((row.enumFrom k).filter (fun jb => jb.2)).length =
      (row.filter id).length := by
  induction row with
  | nil => intro k; rfl
  | cons b t ih => intro k; cases b <;> simp [List.enumFrom, List.filter, ih]

theorem length_trueCells_aux (mask : Grid Bool) :
    ∀ k : Nat, ((mask.enumFrom k).flatMap
      (fun irow => (irow.2.enum.filter (fun jb => jb.2)).map
        (fun jb => (irow.1, jb.1)))).length = countTrue mask := by
  induction mask with
  | nil => intro k; rfl
  | cons row t ih =>
    intro k
    have ih' := ih (k + 1)
    simp only [List.enum] at ih' ⊢
    simp only [List.enumFrom, List.flatMap_cons, List.length_append,
      List.length_map, length_filter_enumFrom, ih', countTrue, List.map_cons,
      List.sum_cons]

theorem length_trueCells (mask : Grid Bool) :
    (trueCells mask).length = countTrue mask := by
  unfold trueCells
  rw [List.enum]
  exact length_trueCells_aux mask 0

/-! ### The claims -/

/-- C1: for every flag array read from FITS extension 3, the loader's
`pipeline_mask` equals `(flag_array & 2) != 0` element-wise: a cell is true
exactly when bit value 2 is set in the corresponding flag value. -/
theorem C1_pipeline_mask_bit2
    (fits_open : String → Except PyError (List HDU)) (filename : String)
    (tpf : MyTPF) (h : MyTPF.ofFile fits_open filename = Except.ok tpf) :
    ∃ hdul hx2 hx3, fits_open filename = Except.ok hdul ∧
      hdul.get? 2 = some hx2 ∧ hdul.get? 3 = some hx3 ∧
      tpf.pipeline_mask = hx3.data.map (fun row => row.map flagBit2) ∧
      ∀ i j v, (hx3.data.get? i).bind (fun row => row.get? j) = some v →
        (tpf.pipeline_mask.get? i).bind (fun row => row.get? j) =
          some (flagBit2 v) := by
  unfold MyTPF.ofFile pyGetItem at h
  cases hf : fits_open filename with
  | error e => rw [hf] at h; simp [Bind.bind, Except.bind] at h
  | ok hdul =>
    rw [hf] at h
    simp only [Bind.bind, Except.bind] at h
    cases h2e : hdul.get? 2 with
    | none => rw [h2e] at h; simp at h
    | some a2 =>
      rw [h2e] at h
      cases h3e : hdul.get? 3 with
      | none => rw [h3e] at h; simp at h
      | some a3 =>
        rw [h3e] at h
        simp only [Except.ok.injEq] at h
        refine ⟨hdul, a2, a3, rfl, h2e, h3e, ?_, ?_⟩
        · rw [← h]
        · intro i j v hv
          cases hri : a3.data.get? i with
          | none => rw [hri] at hv; simp at hv
          | some row =>
            rw [hri] at hv
            simp only [Option.some_bind] at hv
            rw [← h]
            rw [List.get?_eq_getElem?] at hri hv
            simp [List.getElem?_map, hri, hv]

/-- Witness for C1: loading a file whose extension-3 flags are
2, 3, 6 (true) and 0, 1, 4, 5, 0 (false) and 2 (true) yields exactly the
bit-2 mask. -/
theorem C1_witness :
    MyTPF.ofFile sampleOpenFlags "sample.fits" =
      Except.ok sampleLoadedFlags ∧
    ∃ hdul hx2 hx3,
      sampleOpenFlags "sample.fits" = Except.ok hdul ∧
      hdul.get? 2 = some hx2 ∧ hdul.get? 3 = some hx3 ∧
      sampleLoadedFlags.pipeline_mask =
        hx3.data.map (fun row => row.map flagBit2) ∧
      ∀ i j v, (hx3.data.get? i).bind (fun row => row.get? j) = some v →
        (sampleLoadedFlags.pipeline_mask.get? i).bind (fun row => row.get? j) =
          some (flagBit2 v) :=
  ⟨by rfl,
   C1_pipeline_mask_bit2 sampleOpenFlags "sample.fits"
     sampleLoadedFlags (by rfl)⟩

/-- C2: `get_central_coordinate` is exactly the WCS pixel-to-world transform
evaluated at `(width//2, height//2)` with floor division; in particular for a
4x6 flux image the queried pixel is (3, 2). -/
theorem C2_central_coordinate (tpf : MyTPF) :
    tpf.get_central_coordinate =
      tpf.wcs.pixel_to_world (tpf.flux.shape.2 / 2) (tpf.flux.shape.1 / 2) ∧
    (tpf.flux.shape = (4, 6) →
      tpf.get_central_coordinate = tpf.wcs.pixel_to_world 3 2) := by
  constructor
  · rfl
  · intro h4
    show tpf.wcs.pixel_to_world (tpf.flux.shape.2 / 2) (tpf.flux.shape.1 / 2)
      = tpf.wcs.pixel_to_world 3 2
    rw [h4]
    rfl

/-- Witness for C2: on a stub WCS returning the queried pixel indices, a TPF
with 4 rows and 6 columns yields the coordinate of pixel (3, 2): the center
rounded down in both (even) dimensions. -/
theorem C2_witness :
    sampleTPF46.flux.shape = (4, 6) ∧
    sampleTPF46.get_central_coordinate = (3, 2) :=
  ⟨by decide, by rw [(C2_central_coordinate sampleTPF46).2 (by decide)]; rfl⟩

/-- C5: for a well-formed (rectangular) input, `shape` returns exactly the
flux array's dimensions: first component the row count, second component the
length of every row. -/
theorem C5_shape_eq_flux_shape (tpf : MyTPF)
    (hrect : tpf.flux.Rectangular) :
    tpf.shape = tpf.flux.shape ∧ tpf.shape.1 = tpf.flux.length ∧
    ∀ row ∈ tpf.flux, row.length = tpf.shape.2 := by
  refine ⟨rfl, rfl, ?_⟩
  intro row hrow
  exact hrect row hrow

/-- Witness for C5: a 4x6 flux grid is rectangular and its TPF's shape is
(4, 6), the row count and the common row length. -/
theorem C5_witness :
    sampleTPF46.flux.Rectangular ∧
    (sampleTPF46.shape = sampleTPF46.flux.shape ∧
     sampleTPF46.shape.1 = sampleTPF46.flux.length ∧
     ∀ row ∈ sampleTPF46.flux, row.length = sampleTPF46.shape.2) :=
  ⟨by decide, C5_shape_eq_flux_shape sampleTPF46 (by decide)⟩

/-- C3: the aperture overlay adds exactly one rectangle per true cell and
none for false cells; the rectangle for row i, column j has lower-left
corner (j - 0.5, i - 0.5), width 1, height 1, is unfilled and hatched; a 3x3
mask with true only at (1, 1) yields exactly one rectangle at (0.5, 0.5). -/
theorem C3_one_rectangle_per_true_cell (tpf : MyTPF) (ax : Axes)
    (mask : Grid Bool) (c : String) :
    tpf.plot_aperture ax mask c =
      { ax with patches := ax.patches ++
          (trueCells mask).map (fun ij => mkRect ij.1 ij.2 c) } ∧
    (tpf.plot_aperture ax mask c).patches.length =
      ax.patches.length + countTrue mask ∧
    (∀ i j, (mkRect i j c).x = (j : ℚ) - 1/2 ∧
      (mkRect i j c).y = (i : ℚ) - 1/2 ∧
      (mkRect i j c).width = 1 ∧ (mkRect i j c).height = 1 ∧
      (mkRect i j c).fill = false ∧ (mkRect i j c).hatch = "//") ∧
    tpf.plot_aperture ⟨[], []⟩
        [[false, false, false], [false, true, false], [false, false, false]]
        c =
      ⟨[], [mkRect 1 1 c]⟩ ∧
    (mkRect 1 1 c).x = 1/2 ∧ (mkRect 1 1 c).y = 1/2 := by
  refine ⟨plot_aperture_eq tpf ax mask c, ?_, ?_, ?_, ?_, ?_⟩
  · rw [plot_aperture_eq]
    simp [length_trueCells]
  · intro i j
    exact ⟨rfl, rfl, rfl, rfl, rfl, rfl⟩
  · rfl
  · show (1 : ℚ) - 1/2 = 1/2
    norm_num
  · show (1 : ℚ) - 1/2 = 1/2
    norm_num

/-- C6: the mask selector of `plot`: the default argument is the string
"pipeline" and overlays the object's own `pipeline_mask`; a caller-supplied
array overlays that array; `None` disables the overlay while the base image
is still rendered; in every case the axes are returned. -/
theorem C6_mask_selector (tpf : MyTPF) (ax : Axes) (c : String) :
    tpf.plot ax = tpf.plot ax (MaskArg.str "pipeline") "w" ∧
    tpf.plot ax (MaskArg.str "pipeline") c =
      Except.ok (tpf.plot_aperture (plot_image tpf.flux ax)
        tpf.pipeline_mask c) ∧
    (∀ m, tpf.plot ax (MaskArg.arr m) c =
      Except.ok (tpf.plot_aperture (plot_image tpf.flux ax) m c)) ∧
    tpf.plot ax MaskArg.noneArg c = Except.ok (plot_image tpf.flux ax) ∧
    (plot_image tpf.flux ax).patches = ax.patches ∧
    (plot_image tpf.flux ax).images = ax.images ++ [tpf.flux] := by
  exact ⟨rfl, rfl, fun m => rfl, rfl, rfl, rfl⟩

/-- C8: after construction, `shape`, `get_central_coordinate`, `plot` and
`_plot_aperture` leave all four fields of the receiver unchanged; only a
direct external assignment to the mask field (`tpf.pipeline_mask = ...`)
modifies an object, and it changes nothing else. -/
theorem C8_no_mutation (tpf : MyTPF) (ax : Axes) (am : MaskArg)
    (mask : Grid Bool) (c : String) (cut : CutoutTPF) (m : Grid Bool) :
    (tpf.shapeS.2 = tpf ∧ tpf.get_central_coordinateS.2 = tpf ∧
     (tpf.plot_apertureS ax mask c).2 = tpf ∧ (tpf.plotS ax am c).2 = tpf) ∧
    ((tpf.plotS ax am c).2.filename = tpf.filename ∧
     (tpf.plotS ax am c).2.flux = tpf.flux ∧
     (tpf.plotS ax am c).2.pipeline_mask = tpf.pipeline_mask ∧
     (tpf.plotS ax am c).2.wcs = tpf.wcs) ∧
    ((cut.set_pipeline_mask m).pipeline_mask = m ∧
     (cut.set_pipeline_mask m).flux = cut.flux ∧
     (cut.set_pipeline_mask m).meta = cut.meta) :=
  ⟨⟨rfl, rfl, rfl, rfl⟩, ⟨rfl, rfl, rfl, rfl⟩, rfl, rfl, rfl⟩

/-- C9: no operation checks the mask's shape against the flux image's: the
overlay iterates only over the supplied mask (its result does not depend on
the receiver at all, in particular not on its flux), is total, and draws
exactly one rectangle per true cell for every 2D boolean mask. -/
theorem C9_overlay_ignores_flux_shape (t1 t2 : MyTPF) (ax : Axes)
    (mask : Grid Bool) (c : String) :
    MyTPF.plot_aperture t1 ax mask c = MyTPF.plot_aperture t2 ax mask c ∧
    (MyTPF.plot_aperture t1 ax mask c).patches.length =
      ax.patches.length + countTrue mask ∧
    (MyTPF.plot_aperture t1 ax mask c).images = ax.images ∧
    ∃ ax2, t1.plot ax (MaskArg.arr mask) c = Except.ok ax2 ∧
      ax2.patches.length = ax.patches.length + countTrue mask := by
  refine ⟨rfl, ?_, ?_, t1.plot_aperture (plot_image t1.flux ax) mask c,
    rfl, ?_⟩
  · rw [plot_aperture_eq]
    simp [length_trueCells]
  · rw [plot_aperture_eq]
  · rw [plot_aperture_eq]
    simp [plot_image, length_trueCells]

/-- C10: a caller-supplied array mask is never mistaken for the "pipeline"
selector: the equality test of an array against the string "pipeline" is
false, so the overlay follows exactly the supplied array. -/
theorem C10_array_never_equals_pipeline (m : Grid Bool) (tpf : MyTPF)
    (ax : Axes) (c : String) :
    MaskArg.eqStr (MaskArg.arr m) "pipeline" = false ∧
    tpf.plot ax (MaskArg.arr m) c =
      Except.ok (tpf.plot_aperture (plot_image tpf.flux ax) m c) :=
  ⟨rfl, rfl⟩

/-- C4: every successful run of `get_tasoc_tpf` returns a cutout whose
`pipeline_mask` equals the mask of the TPF loaded from the downloaded search
result, and the cutout was requested from `search_tesscut` centered on that
TPF's central coordinate with cutout size equal to that TPF's shape. -/
theorem C4_cutout_request_and_mask (env : Env) (tic : String)
    (sector : Option Nat) (tpf : CutoutTPF)
    (h : get_tasoc_tpf env tic sector = Except.ok tpf) :
    ∃ sr lc tpf0 sr2 cut,
      env.search_lightcurve s!"TIC {tic}" "tasoc" sector = Except.ok sr ∧
      sr.download = Except.ok lc ∧
      MyTPF.ofFile env.fits_open lc.filename = Except.ok tpf0 ∧
      env.search_tesscut tpf0.get_central_coordinate sector = Except.ok sr2 ∧
      sr2.download tpf0.shape = Except.ok cut ∧
      tpf = cut.set_pipeline_mask tpf0.pipeline_mask ∧
      tpf.pipeline_mask = tpf0.pipeline_mask := by
  unfold get_tasoc_tpf at h
  cases h1 : env.search_lightcurve s!"TIC {tic}" "tasoc" sector with
  | error e => simp [Bind.bind, Except.bind, h1] at h
  | ok sr =>
    simp only [Bind.bind, Except.bind, h1] at h
    cases h2 : sr.download with
    | error e => simp [h2] at h
    | ok lc =>
      simp only [h2] at h
      cases h3 : MyTPF.ofFile env.fits_open lc.filename with
      | error e => simp [h3] at h
      | ok tpf0 =>
        simp only [h3] at h
        cases h4 : env.search_tesscut tpf0.get_central_coordinate sector with
        | error e => simp [h4] at h
        | ok sr2 =>
          simp only [h4] at h
          cases h5 : sr2.download tpf0.shape with
          | error e => simp [h5] at h
          | ok cut =>
            simp only [h5, Except.ok.injEq] at h
            refine ⟨sr, lc, tpf0, sr2, cut, rfl, h2, h3, h4, h5, h.symm, ?_⟩
            rw [← h]
            rfl

/-- Witness for C4: in an environment where every call succeeds, the pipeline
returns the downloaded cutout with the loaded TPF's mask attached, and the
cutout request used the loaded TPF's central coordinate and shape. -/
theorem C4_witness :
    get_tasoc_tpf sampleEnv "42" none =
      Except.ok ⟨[[1, 2], [3, 4]], [[true, false], [true, false]],
        "tesscut"⟩ ∧
    ∃ sr lc tpf0 sr2 cut,
      sampleEnv.search_lightcurve s!"TIC 42" "tasoc" none = Except.ok sr ∧
      sr.download = Except.ok lc ∧
      MyTPF.ofFile sampleEnv.fits_open lc.filename = Except.ok tpf0 ∧
      sampleEnv.search_tesscut tpf0.get_central_coordinate none =
        Except.ok sr2 ∧
      sr2.download tpf0.shape = Except.ok cut ∧
      (⟨[[1, 2], [3, 4]], [[true, false], [true, false]], "tesscut"⟩ :
        CutoutTPF) = cut.set_pipeline_mask tpf0.pipeline_mask ∧
      (⟨[[1, 2], [3, 4]], [[true, false], [true, false]], "tesscut"⟩ :
        CutoutTPF).pipeline_mask = tpf0.pipeline_mask :=
  ⟨by rfl,
   C4_cutout_request_and_mask sampleEnv "42" none
     ⟨[[1, 2], [3, 4]], [[true, false], [true, false]], "tesscut"⟩ (by rfl)⟩

/-- C7: neither the loader nor the pipeline function catches, translates or
retries any error: whichever underlying operation fails first (catalog
search, light-curve download, FITS loading — missing file or missing
extension alike —, cutout search, or cutout download), `get_tasoc_tpf`
returns that operation's error unchanged. -/
theorem C7_errors_propagate (env : Env) (tic : String) (sector : Option Nat)
    (e : PyError)
    (h :
      env.search_lightcurve s!"TIC {tic}" "tasoc" sector = Except.error e ∨
      (∃ sr, env.search_lightcurve s!"TIC {tic}" "tasoc" sector =
          Except.ok sr ∧
        sr.download = Except.error e) ∨
      (∃ sr lc, env.search_lightcurve s!"TIC {tic}" "tasoc" sector =
          Except.ok sr ∧
        sr.download = Except.ok lc ∧
        MyTPF.ofFile env.fits_open lc.filename = Except.error e) ∨
      (∃ sr lc tpf0, env.search_lightcurve s!"TIC {tic}" "tasoc" sector =
          Except.ok sr ∧
        sr.download = Except.ok lc ∧
        MyTPF.ofFile env.fits_open lc.filename = Except.ok tpf0 ∧
        env.search_tesscut tpf0.get_central_coordinate sector =
          Except.error e) ∨
      (∃ sr lc tpf0 sr2, env.search_lightcurve s!"TIC {tic}" "tasoc" sector =
          Except.ok sr ∧
        sr.download = Except.ok lc ∧
        MyTPF.ofFile env.fits_open lc.filename = Except.ok tpf0 ∧
        env.search_tesscut tpf0.get_central_coordinate sector =
          Except.ok sr2 ∧
        sr2.download tpf0.shape = Except.error e)) :
    get_tasoc_tpf env tic sector = Except.error e := by
  unfold get_tasoc_tpf
  rcases h with h1 | ⟨sr, h1, h2⟩ | ⟨sr, lc, h1, h2, h3⟩ |
    ⟨sr, lc, tpf0, h1, h2, h3, h4⟩ | ⟨sr, lc, tpf0, sr2, h1, h2, h3, h4, h5⟩
  · simp [Bind.bind, Except.bind, h1]
  · simp [Bind.bind, Except.bind, h1, h2]
  · simp [Bind.bind, Except.bind, h1, h2, h3]
  · simp [Bind.bind, Except.bind, h1, h2, h3, h4]
  · simp [Bind.bind, Except.bind, h1, h2, h3, h4, h5]

/-- Witness for C7: with FITS files that have only two extensions, the loader
fails with `IndexError(2)` from `hdul[2]`, and `get_tasoc_tpf` surfaces that
very error unchanged. -/
theorem C7_witness :
    MyTPF.ofFile sampleEnvShort.fits_open "lc.fits" =
      Except.error (PyError.indexError 2) ∧
    get_tasoc_tpf sampleEnvShort "42" none =
      Except.error (PyError.indexError 2) :=
  ⟨by rfl,
   C7_errors_propagate sampleEnvShort "42" none (PyError.indexError 2)
     (Or.inr (Or.inr (Or.inl
       ⟨⟨Except.ok ⟨"lc.fits"⟩⟩, ⟨"lc.fits"⟩, by rfl, by rfl, by rfl⟩)))⟩
